import Mathlib

/-!
# Verification of the bill-data extraction core

Shallow embedding of the Python sources `app/core/logic.py` and
`app/core/extractor.py` of the Bajaj_Hackathon_Bill_data_extractor
repository, together with theorems settling the frozen claims C1-C10.

Modelling conventions:
* Python `Decimal` values are modelled as exact rationals (`ℚ`).  The
  repository only ever manipulates amounts with a handful of significant
  digits, far below the 28-digit default context, so `Decimal` arithmetic
  is exact there; `quantize(Decimal('0.01'), ROUND_HALF_UP)` is modelled
  by `round2` below.
* Python `str` values are modelled by Lean `String`; `str.lower`,
  `str.strip`, `str.split()` and the membership test `kw in s` are
  modelled on the ASCII fragment actually exercised by the code
  (keywords and item names are ASCII).
* Python dicts that carry a fixed key set are modelled as structures.
-/

namespace BillExtractor

/-- Round-half-up of a rational to an integer: ties are resolved away
from zero, as in Python's `decimal.ROUND_HALF_UP`. -/
def roundHalfUpInt (x : ℚ) : ℤ :=
  if 0 ≤ x then ⌊x + 1 / 2⌋ else -⌊(-x) + 1 / 2⌋

/-- `Decimal.quantize(Decimal('0.01'), rounding=ROUND_HALF_UP)`:
round to two fraction digits, ties away from zero. -/
def round2 (x : ℚ) : ℚ := (roundHalfUpInt (x * 100) : ℚ) / 100

/-- Python `str.lower()` (ASCII fragment, which is all the code
exercises: the keyword set and the names compared against it). -/
def pyLower (s : String) : String := String.mk (s.toList.map Char.toLower)

/-- Python `str.strip()` on the ASCII whitespace fragment. -/
def pyStrip (s : String) : String :=
  String.mk (((s.toList.dropWhile Char.isWhitespace).reverse.dropWhile
    Char.isWhitespace).reverse)

/-- Python `kw in text` on strings: `pat` occurs as a contiguous
substring of `text`. -/
def strContains (text pat : String) : Bool :=
  (text.toList.tails).any (fun suf => pat.toList.isPrefixOf suf)

/-- Helper for `pySplitWs`: accumulate the current word (reversed) while
scanning. -/
def pyWordsAux (cur : List Char) : List Char → List (List Char)
  | [] => if cur = [] then [] else [cur.reverse]
  | c :: rest =>
    if c.isWhitespace then
      if cur = [] then pyWordsAux [] rest else cur.reverse :: pyWordsAux [] rest
    else pyWordsAux (c :: cur) rest

/-- Python `text.split()` with no argument: split on whitespace runs,
dropping empty pieces. -/
def pySplitWs (s : String) : List String :=
  (pyWordsAux [] s.toList).map String.mk

/-- `DOUBLE_COUNT_KEYWORDS` from `app/config.py` (a Python set; order is
irrelevant, only membership is used). -/
def DOUBLE_COUNT_KEYWORDS : List String :=
  ["total", "subtotal", "vat", "tax", "amount due",
   "carry forward", "gst", "sgst", "cgst", "igst",
   "discount", "fee", "charge", "shipping", "grand total"]

/-- A cleaned line item (internal format): the dict
`{'item_name': ..., 'item_quantity': ..., 'item_rate': ..., 'item_amount': ...}`
with `Decimal` fields. -/
structure Item where
  item_name : String
  item_quantity : ℚ
  item_rate : ℚ
  item_amount : ℚ
deriving DecidableEq, Repr

/-! ## DoubleCountingGuard (`app/core/logic.py`) -/

/-- `DoubleCountingGuard.is_double_count_keyword`: lowercase and strip
the text, then test each keyword with Python's substring operator
`keyword in text_lower`. -/
def is_double_count_keyword (text : String) : Bool :=
  if text = "" then false
  else
    let text_lower := pyStrip (pyLower text)
    DOUBLE_COUNT_KEYWORDS.any (fun kw => strContains text_lower kw)

/-- `DoubleCountingGuard.check_outlier_total`: an amount is an outlier
total when there are at least two accepted items, their amount sum is
nonzero, the amount exceeds five times the average accepted amount, and
it differs from the sum by less than `0.01`.  Division `total / len` is
exact here (modelled in `ℚ`). -/
def check_outlier_total (items : List Item) (suspect_amount : ℚ) : Bool :=
  if items.length < 2 then false
  else
    let total := (items.map Item.item_amount).sum
    if total = 0 then false
    else
      let avg_amount := total / items.length
      if suspect_amount > avg_amount * 5 ∧ |suspect_amount - total| < 1 / 100
      then true else false

/-- The per-item keep/remove decision of
`DoubleCountingGuard.filter_double_counts`, as a function of the list of
already-accepted items (`clean_items` at that point of the loop).
Keyword-matching items are kept exactly when `quantity > 0` and
`rate ≠ 0`; other items are dropped only when at least three items are
already accepted and `check_outlier_total` fires. -/
def keepDecision (clean : List Item) (it : Item) : Bool :=
  if is_double_count_keyword (pyLower it.item_name) then
    decide (0 < it.item_quantity) && decide (it.item_rate ≠ 0)
  else if 3 ≤ clean.length then
    ! check_outlier_total clean it.item_amount
  else true

/-- The loop of `filter_double_counts`.  The Python loop mutates
`clean_items` in place; here the already-accepted prefix is threaded as
the `clean` argument and the function returns the newly accepted suffix
together with the removed items, both in input order. -/
def goDC (clean : List Item) : List Item → List Item × List Item
  | [] => ([], [])
  | it :: rest =>
    if keepDecision clean it then
      (it :: (goDC (clean ++ [it]) rest).1, (goDC (clean ++ [it]) rest).2)
    else
      ((goDC clean rest).1, it :: (goDC clean rest).2)

/-- `DoubleCountingGuard.filter_double_counts`: returns
`(clean_items, removed_items)`. -/
def filter_double_counts (items : List Item) : List Item × List Item :=
  goDC [] items

/-! ## DataCleaner (`app/core/logic.py`) -/

/-- A character matched by the `[\s\-\*]` class of `clean_item_name`. -/
def isNoiseChar (c : Char) : Bool := c.isWhitespace || c = '-' || c = '*'

/-- `re.sub(r'^[\s\-\*]+|[\s\-\*]+$', '', ·)`: drop the leading and the
trailing run of whitespace/dash/asterisk characters. -/
def stripNoise (l : List Char) : List Char :=
  ((l.dropWhile isNoiseChar).reverse.dropWhile isNoiseChar).reverse

/-- One pass of `re.sub(rf'(?<=[0-9]){c}(?=[0-9])', r, ·)`: replace `c`
by `r` at every position whose neighbours in the *original* string are
both digits (the regex lookarounds inspect the input, not the output).
`prev` carries the original previous character. -/
def rbdAux (c r : Char) (prev : Char) : List Char → List Char
  | [] => []
  | [x] => [x]
  | x :: y :: rest =>
    (if x = c && prev.isDigit && y.isDigit then r else x) :: rbdAux c r x (y :: rest)

/-- `re.sub(rf'(?<=[0-9]){c}(?=[0-9])', r, s)` on a whole string; the
first character has no predecessor, modelled by a non-digit sentinel. -/
def replaceBetweenDigits (c r : Char) (l : List Char) : List Char :=
  rbdAux c r ' ' l

/-- `DataCleaner.fix_ocr_errors`: the four digit-context substitutions
`l→1`, `O→0`, `S→5`, `B→8`, applied in that (dict insertion) order, each
pass running on the output of the previous one. -/
def fix_ocr_errors (text : String) : String :=
  if text = "" then text
  else
    String.mk (replaceBetweenDigits 'B' '8'
      (replaceBetweenDigits 'S' '5'
        (replaceBetweenDigits 'O' '0'
          (replaceBetweenDigits 'l' '1' text.toList))))

/-- `' '.join(words)` at the character level. -/
def joinSpace : List (List Char) → List Char
  | [] => []
  | [w] => w
  | w :: ws => w ++ ' ' :: joinSpace ws

/-- `DataCleaner.clean_item_name`: collapse whitespace runs to single
spaces, strip leading/trailing whitespace/dash/asterisk noise, then fix
OCR digit confusions. -/
def clean_item_name (name : String) : String :=
  if name = "" then ""
  else
    let n1 := joinSpace (pyWordsAux [] name.toList)
    let n2 := stripNoise n1
    fix_ocr_errors (String.mk n2)

/-! ## ReconciliationEngine (`app/core/logic.py`) -/

/-- `ReconciliationEngine.__init__`: the stored threshold is the
constructor percentage divided by 100 (`Decimal(str(threshold)) / 100`).
The float-to-string round trip is exact for the short decimal literals
used as thresholds. -/
def engineThreshold (threshold : ℚ) : ℚ := threshold / 100

/-- `ReconciliationEngine.calculate_line_item_total`:
`(quantity * rate).quantize(Decimal('0.01'), ROUND_HALF_UP)`.  The
`except` branch is unreachable in the exact-rational model. -/
def calculate_line_item_total (quantity rate : ℚ) : ℚ :=
  round2 (quantity * rate)

/-- `ReconciliationEngine.sum_line_items`: sum of the `item_amount`
fields, quantized to two fraction digits, half-up. -/
def sum_line_items (items : List Item) : ℚ :=
  round2 ((items.map Item.item_amount).sum)

/-- `ReconciliationEngine.reconcile`, taking the engine's stored
threshold (`engineThreshold` of the configured percentage) as first
argument.  Returns `(is_match, discrepancy, status)`. -/
def reconcile (selfThreshold : ℚ) (calculated_total actual_total : ℚ) :
    Bool × ℚ × String :=
  let discrepancy := |calculated_total - actual_total|
  if discrepancy = 0 then (true, 0, "exact_match")
  else if 0 < actual_total ∧ discrepancy / actual_total ≤ selfThreshold then
    (true, discrepancy, "within_threshold")
  else (false, discrepancy, "mismatch")

/-- `ReconciliationEngine.validate_line_item_amounts`: one entry per item
whose unquantized `quantity * rate` differs from `amount` by more than
`0.01`.  The error message text is abstracted to the offending item's
name; the source's `(is_valid, errors)` pair is recovered as
`(errors = [], errors)`. -/
def validate_line_item_errors (items : List Item) : List String :=
  items.filterMap fun it =>
    if |it.item_quantity * it.item_rate - it.item_amount| > 1 / 100 then
      some it.item_name
    else none

/-! ## ExtractedDataValidator (`app/core/logic.py`) -/

/-- The validation report of `validate_and_clean`.  Warning and error
message texts are abstracted to the offending item's cleaned name; the
`cleaning_steps` log strings are not modelled. -/
structure VReport where
  original_count : ℕ
  warnings : List String
  errors : List String
  final_count : ℕ
deriving DecidableEq, Repr

/-- The per-item Step 1 of `ExtractedDataValidator.validate_and_clean`:
clean the name, recompute `quantity*rate` (quantized), and overwrite the
stated amount whenever the two differ by more than `0.01`, recording a
warning.  Returns the cleaned item and whether a warning was recorded.
The numeric fields arrive as `Decimal`s here (the orchestrator converts
first), so the per-item `except` branch is unreachable. -/
def cleanOne (it : Item) : Item × Bool :=
  let nm := clean_item_name it.item_name
  let calculated_amount := calculate_line_item_total it.item_quantity it.item_rate
  if |calculated_amount - it.item_amount| > 1 / 100 then
    ({ item_name := nm, item_quantity := it.item_quantity,
       item_rate := it.item_rate, item_amount := calculated_amount }, true)
  else
    ({ item_name := nm, item_quantity := it.item_quantity,
       item_rate := it.item_rate, item_amount := it.item_amount }, false)

/-- `ExtractedDataValidator.validate_and_clean`: Step 1 cleans every
item (`cleanOne`), Step 2 filters double counts, Step 3 reports (but
does not act on) per-item amount mismatches.  `bill_total` is accepted
and, as in the source, never used. -/
def validate_and_clean (items : List Item) (bill_total : Option ℚ) :
    List Item × VReport :=
  let pass1 := items.map cleanOne
  let cleaned_items := pass1.map Prod.fst
  let warnings := (pass1.filter Prod.snd).map (fun p => p.1.item_name)
  let filtered_items := (filter_double_counts cleaned_items).1
  let errors := validate_line_item_errors filtered_items
  (filtered_items, ⟨items.length, warnings, errors, filtered_items.length⟩)

/-! ## ExtractionOrchestrator (`app/core/extractor.py`) -/

/-- A raw field value as delivered by JSON/regex extraction: `None`
(missing key or JSON `null`), a string, or a number.  Numbers carry the
exact value; the `Decimal(str(float))` round trip is exact for the short
literals the code handles. -/
inductive PyVal where
  | vNone
  | vStr (s : String)
  | vNum (q : ℚ)
deriving DecidableEq, Repr

/-- A raw extraction item: the dict with keys
`item_name` / `quantity` / `rate` / `amount` produced by the response
parser (a missing numeric key is `vNone`; a missing name is `""`). -/
structure RawItem where
  item_name : String
  quantity : PyVal
  rate : PyVal
  amount : PyVal
deriving DecidableEq, Repr

/-- Numeric value of a digit run (most significant first). -/
def digitsToNat (ds : List Char) : ℕ :=
  ds.foldl (fun a c => a * 10 + (c.toNat - 48)) 0

/-- The finite-literal fragment of Python's `Decimal(string)`
constructor: optional sign, digits with an optional fraction part (at
least one digit overall), optional exponent.  Special values (`NaN`,
`Infinity`) and non-ASCII digits are outside the model and treated as
unparsable. -/
def parseDec (s : String) : Option ℚ :=
  let cs := s.toList
  let sgnSplit : ℚ × List Char :=
    match cs with
    | '+' :: t => (1, t)
    | '-' :: t => (-1, t)
    | t => (1, t)
  let sgn := sgnSplit.1
  let cs1 := sgnSplit.2
  let ip := cs1.takeWhile Char.isDigit
  let cs2 := cs1.dropWhile Char.isDigit
  let fpSplit : List Char × List Char :=
    match cs2 with
    | '.' :: t => (t.takeWhile Char.isDigit, t.dropWhile Char.isDigit)
    | t => ([], t)
  let fp := fpSplit.1
  let cs3 := fpSplit.2
  if ip = [] ∧ fp = [] then none
  else
    let mant : ℚ := sgn * ((digitsToNat ip : ℚ) +
      (digitsToNat fp : ℚ) / ((10 ^ fp.length : ℕ) : ℚ))
    match cs3 with
    | [] => some mant
    | e :: t =>
      if e = 'e' ∨ e = 'E' then
        let esgnSplit : Bool × List Char :=
          match t with
          | '+' :: t2 => (true, t2)
          | '-' :: t2 => (false, t2)
          | t2 => (true, t2)
        let ed := esgnSplit.2.takeWhile Char.isDigit
        let rest := esgnSplit.2.dropWhile Char.isDigit
        if ed = [] ∨ rest ≠ [] then none
        else some (if esgnSplit.1 then mant * ((10 ^ digitsToNat ed : ℕ) : ℚ)
          else mant / ((10 ^ digitsToNat ed : ℕ) : ℚ))
      else none

/-- `str.replace(',','').replace(' ','')`. -/
def pyRemoveCommasSpaces (s : String) : String :=
  String.mk (s.toList.filter (fun c => c ≠ ',' ∧ c ≠ ' '))

/-- `ExtractionOrchestrator._safe_decimal_convert`: `None` and the empty
(post-cleanup) string give the default; an unparsable value gives the
default via the `except` branch; otherwise the exact decimal value. -/
def safe_decimal_convert (value : PyVal) (dflt : ℚ) : ℚ :=
  match value with
  | .vNone => dflt
  | .vNum q => q
  | .vStr s =>
    let s' := pyRemoveCommasSpaces (pyStrip s)
    if s' = "" then dflt
    else
      match parseDec s' with
      | some q => q
      | none => dflt

/-- `ExtractionOrchestrator._convert_to_internal_format`: per item,
quantity defaults to 1, rate and amount to 0; the per-item `except`
branch is unreachable for well-typed items, so no item is dropped. -/
def convert_to_internal_format (items : List RawItem) : List Item :=
  items.map fun it =>
    { item_name := it.item_name
      item_quantity := safe_decimal_convert it.quantity 1
      item_rate := safe_decimal_convert it.rate 0
      item_amount := safe_decimal_convert it.amount 0 }

/-- `GeminiExtractor._validate_extracted_items` as invoked from
`ExtractionOrchestrator.extract_bill` (Phase 3b).  The function reads
the keys `quantity`, `rate` and `amount`, but the items it receives at
that call site carry the internal keys `item_quantity`, `item_rate`,
`item_amount`, so every lookup yields its default (`1`, `0`, `0`; the
falsy-value fallback then maps them to the same values).  Hence the
zero-amount-and-quantity skip never fires (quantity is 1), the
quantity*rate consistency check never fires (rate is 0), and each item
whose stripped name is nonempty is rebuilt with quantity 1, rate 0,
amount 0.  The constant `confidence` field (0.95 on this path, since no
suspicious item can be recorded) is omitted. -/
def validate_extracted_items_internal (items : List Item) : List Item :=
  items.filterMap fun it =>
    let item_name := pyStrip it.item_name
    if item_name = "" then none
    else some { item_name := item_name, item_quantity := 1,
                item_rate := 0, item_amount := 0 }

/-- The slice of the orchestrator's per-page metadata dict that the
pure pipeline writes: logging, accuracy-score and token-usage fields
are omitted.  Warning texts are abstracted as in `VReport`. -/
structure Metadata where
  reconciliation_status : String
  discrepancy : ℚ
  retry_attempts : ℕ
  warnings : List String
deriving DecidableEq, Repr

/-- The pure tail of `ExtractionOrchestrator.extract_bill`: everything
after the vision response has been parsed into raw `line_items` and an
optional `bill_total`.  Mirrors the source: convert to internal format;
on an empty list terminate early with the `pending` status and a
warning; otherwise clean and validate, run the Phase 3b accuracy pass,
sum the line items, and return with `reconciliation_status`
`"skipped_for_speed"` and zero retries — the reconciliation engine and
the retry round are never invoked on this path. -/
def extract_bill_post (line_items : List RawItem) (bill_total : Option ℚ) :
    List Item × ℚ × Metadata :=
  let raw_items := convert_to_internal_format line_items
  if raw_items = [] then
    ([], 0, ⟨"pending", 0, 0, ["No line items found in document"]⟩)
  else
    let cleaned := validate_and_clean raw_items bill_total
    let validated_items := validate_extracted_items_internal cleaned.1
    let calculated_total := sum_line_items validated_items
    (validated_items, calculated_total,
      ⟨"skipped_for_speed", 0, 0, cleaned.2.warnings⟩)

/-! ## GeminiExtractor._parse_response (`app/core/extractor.py`)

The recovery cascade calls external parsing libraries (`json.loads`,
`json5.loads`) and the regex salvager on transformed copies of the
response text.  The control flow of `_parse_response` is embedded
exactly; the outcomes of the library calls on the brace-delimited
substring and on its transformed variants are supplied as an oracle
record, one field per call the cascade can make. -/

/-- The recovery stages of `_parse_response` that can be attempted after
the brace-delimited substring has been located. -/
inductive Stage where
  | strict           -- `json.loads(json_str)`
  | regexSalvage     -- `_extract_values_safely(json_str)` (STEP 1)
  | fixStructure     -- `json.loads(_fix_json_structure(json_str))` (STEP 2)
  | json5lenient     -- `json5.loads(json_str)` (STEP 3)
  | aggressiveRepair -- `json.loads(_repair_json(json_str))` (STEP 4)
deriving DecidableEq, Repr

/-- A successfully parsed top-level JSON object, projected onto the
fields `_parse_response` reads.  `isEmpty` is the Python truthiness of
the dict (`{}` is falsy); a field whose key is absent carries its
`.get` default. -/
structure JDict where
  isEmpty : Bool
  extraction_reasoning : String
  line_items : List RawItem
  bill_total : Option ℚ
  subtotals : List ℚ
  notes : String
deriving DecidableEq, Repr

/-- The well-shaped result dict `_parse_response` always returns. -/
structure ParseResult where
  extraction_reasoning : String
  line_items : List RawItem
  bill_total : Option ℚ
  subtotals : List ℚ
  notes : String
deriving DecidableEq, Repr

/-- Oracle for one response text: whether a `{`…`}` substring exists,
and the outcome of each external parse the cascade can perform on it.
`json5Avail` models the optional `json5` import (`if json5:`). -/
structure RespOracle where
  hasBraces : Bool
  strict : Option JDict
  regexItems : List RawItem
  regexTotal : Option ℚ
  fixed : Option JDict
  json5Avail : Bool
  json5 : Option JDict
  repaired : Option JDict

/-- The final `extraction.get(...)` projection of `_parse_response`. -/
def normalizeD (d : JDict) : ParseResult :=
  ⟨d.extraction_reasoning, d.line_items, d.bill_total, d.subtotals, d.notes⟩

/-- The result dict built by `_extract_values_safely`: empty reasoning
and notes, the regex-recovered items and bill total. -/
def regexResult (t : RespOracle) : ParseResult :=
  ⟨"", t.regexItems, t.regexTotal, [], ""⟩

/-- The `if extraction:` truthiness check at the end of
`_parse_response`: an empty parsed dict falls through to the
`'Failed to parse JSON'` result. -/
def truthyResult (d : JDict) : ParseResult :=
  if d.isEmpty then ⟨"", [], none, [], "Failed to parse JSON"⟩
  else normalizeD d

/-- `GeminiExtractor._parse_response`, with an attempt trace: the second
component lists, in order, each stage attempted together with whether it
succeeded (for `regexSalvage`, success means at least one item was
recovered).  Key control-flow facts mirrored from the source: the regex
salvager runs *first* after a strict-parse failure and its dict is kept
in `extraction`; since that dict is never `None`, the `STEP 4` repair
branch (guarded by `extraction is None`) and the
`'could not recover'` return are unreachable, and a fully failed
cascade falls through to the truthy regex dict with its empty items. -/
def parse_response (t : RespOracle) : ParseResult × List (Stage × Bool) :=
  if ¬ t.hasBraces then
    (⟨"", [], none, [], "Failed to parse response"⟩, [])
  else
    match t.strict with
    | some d => (truthyResult d, [(Stage.strict, true)])
    | none =>
      if t.regexItems ≠ [] then
        (regexResult t, [(Stage.strict, false), (Stage.regexSalvage, true)])
      else
        match t.fixed with
        | some d =>
          (truthyResult d,
           [(Stage.strict, false), (Stage.regexSalvage, false),
            (Stage.fixStructure, true)])
        | none =>
          if t.json5Avail then
            match t.json5 with
            | some d =>
              (truthyResult d,
               [(Stage.strict, false), (Stage.regexSalvage, false),
                (Stage.fixStructure, false), (Stage.json5lenient, true)])
            | none =>
              (regexResult t,
               [(Stage.strict, false), (Stage.regexSalvage, false),
                (Stage.fixStructure, false), (Stage.json5lenient, false)])
          else
            (regexResult t,
             [(Stage.strict, false), (Stage.regexSalvage, false),
              (Stage.fixStructure, false)])

/-! ## Spec-side definitions

The following definitions follow the *words of the spec/claims* (not the
source); they exist only to be compared against the source-derived
definitions above when a claim asserts a different behaviour than the
code implements. -/

/-- The removal-candidate notion in the words of claim C3: the
normalized name equals a configured keyword, or contains one as a
standalone (whitespace-delimited) token. -/
def specTokenCandidate (name : String) : Bool :=
  let norm := pyStrip (pyLower name)
  DOUBLE_COUNT_KEYWORDS.any (fun kw => norm = kw || (pySplitWs norm).contains kw)

/-- The outlier-removal condition in the words of claim C6: the amount
exceeds five times the running average of the already-accepted amounts,
and equals their sum to within `0.01`. -/
def specOutlierRemoval (prevAmounts : List ℚ) (amt : ℚ) : Prop :=
  prevAmounts.sum / prevAmounts.length * 5 < amt ∧
  |amt - prevAmounts.sum| < 1 / 100

/-- The recovery-stage order asserted by claim C4: strict parse, then
lenient parse, then structural repair with strict re-parse, then regex
field salvage. -/
def claimedStageOrder : List Stage :=
  [Stage.strict, Stage.json5lenient, Stage.fixStructure, Stage.regexSalvage]

/-- The recovery-stage order actually implemented by `_parse_response`
(the aggressive-repair stage is unreachable, see `parse_response`). -/
def codeStageOrder : List Stage :=
  [Stage.strict, Stage.regexSalvage, Stage.fixStructure, Stage.json5lenient]

/-- No parsing stage of the cascade can deliver a line item for this
response text: every parse that succeeds carries an empty `line_items`
list and the regex salvager finds nothing. -/
def noItemsRecoverable (t : RespOracle) : Prop :=
  (∀ d, t.strict = some d → d.line_items = []) ∧
  t.regexItems = [] ∧
  (∀ d, t.fixed = some d → d.line_items = []) ∧
  (∀ d, t.json5 = some d → d.line_items = [])

/-! ## Helper lemmas on the double-counting loop -/

/-- Every element of `l` is kept by the loop decision when evaluated
with the accepted prefix accumulated from `clean`. -/
def allKeepFrom (clean : List Item) : List Item → Bool
  | [] => true
  | it :: rest => keepDecision clean it && allKeepFrom (clean ++ [it]) rest

theorem goDC_of_allKeep (l : List Item) :
    ∀ clean, allKeepFrom clean l = true → goDC clean l = (l, []) := by
  induction l with
  | nil => intro clean _; rfl
  | cons it rest ih =>
    intro clean h
    rw [allKeepFrom, Bool.and_eq_true] at h
    rw [goDC, if_pos h.1, ih _ h.2]

theorem allKeep_goDC (l : List Item) :
    ∀ clean, allKeepFrom clean (goDC clean l).1 = true := by
  induction l with
  | nil => intro clean; rfl
  | cons it rest ih =>
    intro clean
    rw [goDC]
    by_cases h : keepDecision clean it = true
    · rw [if_pos h]
      simpa [allKeepFrom, h] using ih (clean ++ [it])
    · rw [if_neg h]
      exact ih clean

theorem goDC_fst_sublist (l : List Item) :
    ∀ clean, ((goDC clean l).1).Sublist l := by
  induction l with
  | nil => intro clean; simp [goDC]
  | cons it rest ih =>
    intro clean
    rw [goDC]
    by_cases h : keepDecision clean it = true
    · rw [if_pos h]; exact List.Sublist.cons₂ it (ih (clean ++ [it]))
    · rw [if_neg h]; exact List.Sublist.cons it (ih clean)

theorem goDC_snd_sublist (l : List Item) :
    ∀ clean, ((goDC clean l).2).Sublist l := by
  induction l with
  | nil => intro clean; simp [goDC]
  | cons it rest ih =>
    intro clean
    rw [goDC]
    by_cases h : keepDecision clean it = true
    · rw [if_pos h]; exact List.Sublist.cons it (ih (clean ++ [it]))
    · rw [if_neg h]; exact List.Sublist.cons₂ it (ih clean)

theorem goDC_count (l : List Item) :
    ∀ clean (x : Item),
      ((goDC clean l).1).count x + ((goDC clean l).2).count x = l.count x := by
  induction l with
  | nil => intro clean x; simp [goDC]
  | cons it rest ih =>
    intro clean x
    rw [goDC]
    by_cases h : keepDecision clean it = true
    · rw [if_pos h]
      simp only [List.count_cons]
      have := ih (clean ++ [it]) x
      omega
    · rw [if_neg h]
      simp only [List.count_cons]
      have := ih clean x
      omega

theorem goDC_length (l : List Item) :
    ∀ clean,
      ((goDC clean l).1).length + ((goDC clean l).2).length = l.length := by
  induction l with
  | nil => intro clean; simp [goDC]
  | cons it rest ih =>
    intro clean
    rw [goDC]
    by_cases h : keepDecision clean it = true
    · rw [if_pos h]
      simp only [List.length_cons]
      have := ih (clean ++ [it])
      omega
    · rw [if_neg h]
      simp only [List.length_cons]
      have := ih clean
      omega

/-! ## Claim theorems -/

/-- C8: `DoubleCountingGuard.filter_double_counts` is idempotent — for
every item list, applying the filter to the kept list produced by a
first application returns that list unchanged, with an empty removed
list. -/
theorem claim_C8 (items : List Item) :
    filter_double_counts (filter_double_counts items).1 =
      ((filter_double_counts items).1, []) :=
  goDC_of_allKeep _ [] (allKeep_goDC items [])

/-- C9: `filter_double_counts` partitions its input — the kept and
removed lists are order-preserving sublists of the input, every input
item lands in exactly one of them (multiset count adds up, so nothing is
duplicated or dropped), and the output lengths sum to the input
length. -/
theorem claim_C9 (items : List Item) :
    ((filter_double_counts items).1).Sublist items ∧
    ((filter_double_counts items).2).Sublist items ∧
    (∀ x : Item,
      ((filter_double_counts items).1).count x +
        ((filter_double_counts items).2).count x = items.count x) ∧
    ((filter_double_counts items).1).length +
      ((filter_double_counts items).2).length = items.length :=
  ⟨goDC_fst_sublist items [], goDC_snd_sublist items [],
    fun x => goDC_count items [] x, goDC_length items []⟩

/-- C5: `ReconciliationEngine.reconcile` returns
`discrepancy = |computedSum - claimedTotal|`, classifies `exact_match`
exactly when the discrepancy is 0, `within_threshold` exactly when it is
nonzero, the claimed total is positive and the relative discrepancy is
within the stored threshold, and `mismatch` otherwise; `is_match` holds
exactly in the first two cases.  Moreover `reconcile(x, x)` yields
`exact_match` with discrepancy `0.00` for every `x ≥ 0`. -/
theorem claim_C5 :
    (∀ th x y : ℚ,
      (reconcile th x y).2.1 = |x - y| ∧
      ((reconcile th x y).2.2 = "exact_match" ↔ |x - y| = 0) ∧
      ((reconcile th x y).2.2 = "within_threshold" ↔
        |x - y| ≠ 0 ∧ 0 < y ∧ |x - y| / y ≤ th) ∧
      ((reconcile th x y).2.2 = "mismatch" ↔
        |x - y| ≠ 0 ∧ ¬(0 < y ∧ |x - y| / y ≤ th)) ∧
      ((reconcile th x y).1 = true ↔
        |x - y| = 0 ∨ (0 < y ∧ |x - y| / y ≤ th))) ∧
    (∀ th x : ℚ, 0 ≤ x → reconcile th x x = (true, 0, "exact_match")) := by
  constructor
  · intro th x y
    simp only [reconcile]
    by_cases h0 : |x - y| = 0
    · simp [h0]
    · by_cases h1 : 0 < y ∧ |x - y| / y ≤ th
      · simp [h0, h1]
      · simp [h0, h1]
  · intro th x _
    simp [reconcile]

/-- Witness for C5 at a concrete input. -/
theorem claim_C5_witness :
    reconcile (1 / 10000) 5 5 = (true, 0, "exact_match") :=
  claim_C5.2 (1 / 10000) 5 (by norm_num)

/-- C3, counterexample: the claim says a name that merely contains a
keyword as a substring inside a larger word (here `"fee"` inside
`"Coffee"`) is *not* a removal candidate, so an item named `"Coffee"`
would be kept; the code's candidate test is plain substring containment,
and with rate 0 the candidate veto fails, so the item is removed.
`specTokenCandidate` is the claim's candidate notion and is false on
this name. -/
theorem claim_C3_counterexample :
    filter_double_counts [⟨"Coffee", 1, 0, 5⟩] = ([], [⟨"Coffee", 1, 0, 5⟩]) ∧
    specTokenCandidate "Coffee" = false := by
  constructor
  · decide
  · decide

/-- C3, amended: an item is a removal candidate exactly when its
lowercased, stripped name *contains one of the configured keywords as a
substring* (also inside a larger word); a candidate is kept exactly when
its quantity is positive and its rate nonzero. -/
theorem claim_C3 :
    (∀ name : String, is_double_count_keyword name = true ↔
      name ≠ "" ∧ ∃ kw ∈ DOUBLE_COUNT_KEYWORDS,
        strContains (pyStrip (pyLower name)) kw = true) ∧
    (∀ (clean : List Item) (it : Item),
      is_double_count_keyword (pyLower it.item_name) = true →
      (keepDecision clean it = true ↔
        0 < it.item_quantity ∧ it.item_rate ≠ 0)) := by
  constructor
  · intro name
    by_cases h : name = ""
    · simp [is_double_count_keyword, h]
    · simp [is_double_count_keyword, h, List.any_eq_true]
  · intro clean it h
    simp [keepDecision, h]

/-- Witness for C3 at a concrete input. -/
theorem claim_C3_witness :
    keepDecision [] ⟨"Total", 2, 3, 6⟩ = true ↔
      0 < (2 : ℚ) ∧ (3 : ℚ) ≠ 0 :=
  claim_C3.2 [] ⟨"Total", 2, 3, 6⟩ (by decide)

/-- C6, counterexample: with three accepted items of amount 0 and a
fourth non-keyword item of amount `0.005`, the claim's removal condition
holds (`0.005` exceeds five times the running average 0 and differs from
the accepted sum 0 by less than `0.01`), yet the code keeps the item:
`check_outlier_total` returns `False` whenever the accepted sum is 0. -/
theorem claim_C6_counterexample :
    filter_double_counts
        [⟨"a", 1, 1, 0⟩, ⟨"b", 1, 1, 0⟩, ⟨"c", 1, 1, 0⟩, ⟨"d", 1, 1, 1 / 200⟩] =
      ([⟨"a", 1, 1, 0⟩, ⟨"b", 1, 1, 0⟩, ⟨"c", 1, 1, 0⟩, ⟨"d", 1, 1, 1 / 200⟩],
        []) ∧
    specOutlierRemoval [0, 0, 0] (1 / 200) := by
  constructor
  · simp [filter_double_counts, goDC, keepDecision, is_double_count_keyword,
      check_outlier_total]
  · norm_num [specOutlierRemoval, abs_lt]

/-- C6, amended: `check_outlier_total` fires exactly when at least two
items are already accepted, their amount sum is *nonzero*, the suspect
amount exceeds five times the running average, and it differs from the
accepted sum by less than `0.01`; inside `filter_double_counts` this
decides removal for non-keyword items once at least three items are
accepted. -/
theorem claim_C6 :
    (∀ (clean : List Item) (amt : ℚ),
      check_outlier_total clean amt = true ↔
        2 ≤ clean.length ∧ (clean.map Item.item_amount).sum ≠ 0 ∧
        (clean.map Item.item_amount).sum / (clean.length : ℚ) * 5 < amt ∧
        |amt - (clean.map Item.item_amount).sum| < 1 / 100) ∧
    (∀ (clean : List Item) (it : Item),
      is_double_count_keyword (pyLower it.item_name) = false →
      3 ≤ clean.length →
      (keepDecision clean it = false ↔
        check_outlier_total clean it.item_amount = true)) := by
  constructor
  · intro clean amt
    simp only [check_outlier_total]
    split_ifs with h1 h2 h3
    · simp only [Bool.false_eq_true, false_iff]
      rintro ⟨hl, -⟩; omega
    · simp [h2]
    · simp only [true_iff]
      exact ⟨by omega, h2, h3.1, h3.2⟩
    · simp only [Bool.false_eq_true, false_iff]
      rintro ⟨-, -, hc1, hc2⟩
      exact h3 ⟨hc1, hc2⟩
  · intro clean it h h3
    simp [keepDecision, h, h3]

/-- Witness for C6 at a concrete input. -/
theorem claim_C6_witness :
    keepDecision [⟨"a", 1, 1, 1⟩, ⟨"b", 1, 1, 1⟩, ⟨"c", 1, 1, 1⟩]
        ⟨"d", 1, 1, 100⟩ = false ↔
      check_outlier_total [⟨"a", 1, 1, 1⟩, ⟨"b", 1, 1, 1⟩, ⟨"c", 1, 1, 1⟩]
        100 = true :=
  claim_C6.2 _ _ (by decide) (by decide)

/-- C2, counterexample: the claim says that when the rate is absent or
zero the stated amount is kept unchanged; in the code the recomputation
is unconditional, so an item with rate 0 and stated amount 500 has its
amount overwritten to `0.00` (= `quantity * rate`) and a warning
recorded. -/
theorem claim_C2_counterexample :
    cleanOne ⟨"x", 1, 0, 500⟩ = (⟨"x", 1, 0, 0⟩, true) := by
  simp [cleanOne, calculate_line_item_total, round2, roundHalfUpInt]
  norm_num
  decide

/-- C2, amended: for every item processed by
`ExtractedDataValidator.validate_and_clean`, the amount is recomputed as
the quantized `quantity * rate` and overwritten (with a warning
recorded) exactly when the stated amount differs from it by more than
`0.01`, *regardless of the rate* (also when the rate is zero);
otherwise the stated amount is kept and no warning is recorded.  For
quantity 14, rate 32, stated amount 500, the output amount is `448.00`
and one warning is recorded. -/
theorem claim_C2 :
    (∀ it : Item,
      |calculate_line_item_total it.item_quantity it.item_rate -
        it.item_amount| ≤ 1 / 100 →
      cleanOne it = (⟨clean_item_name it.item_name, it.item_quantity,
        it.item_rate, it.item_amount⟩, false)) ∧
    (∀ it : Item,
      1 / 100 < |calculate_line_item_total it.item_quantity it.item_rate -
        it.item_amount| →
      cleanOne it = (⟨clean_item_name it.item_name, it.item_quantity,
        it.item_rate,
        calculate_line_item_total it.item_quantity it.item_rate⟩, true)) ∧
    validate_and_clean [⟨"Livi 300mg Tab", 14, 32, 500⟩] none =
      ([⟨"Livi 300mg Tab", 14, 32, 448⟩], ⟨1, ["Livi 300mg Tab"], [], 1⟩) := by
  refine ⟨?_, ?_, ?_⟩
  · intro it h
    simp only [cleanOne]
    rw [if_neg (not_lt.mpr h)]
  · intro it h
    simp only [cleanOne]
    rw [if_pos h]
  · simp [validate_and_clean, cleanOne, calculate_line_item_total,
      clean_item_name, round2, roundHalfUpInt, filter_double_counts, goDC,
      keepDecision, validate_line_item_errors]
    norm_num
    decide

/-- Witness for C2 at a concrete input (the overwritten branch). -/
theorem claim_C2_witness :
    cleanOne ⟨"n", 14, 32, 500⟩ =
      (⟨clean_item_name "n", 14, 32, calculate_line_item_total 14 32⟩,
       true) :=
  claim_C2.2.1 ⟨"n", 14, 32, 500⟩
    (by unfold calculate_line_item_total round2 roundHalfUpInt; norm_num)

/-- C10: at the raw-to-internal conversion boundary
(`_safe_decimal_convert` / `_convert_to_internal_format`), a `None` or
empty-string or unparsable quantity/rate/amount falls back to the
default (1 for quantity, 0 for rate and amount); no item is rejected
(one output item per input item, so the total conversion never fails),
and an item carrying only a name converts to quantity 1, rate 0,
amount 0. -/
theorem claim_C10 :
    (∀ d : ℚ, safe_decimal_convert PyVal.vNone d = d) ∧
    (∀ d : ℚ, safe_decimal_convert (PyVal.vStr "") d = d) ∧
    (∀ (s : String) (d : ℚ),
      parseDec (pyRemoveCommasSpaces (pyStrip s)) = none →
      safe_decimal_convert (PyVal.vStr s) d = d) ∧
    (∀ items : List RawItem,
      (convert_to_internal_format items).length = items.length) ∧
    (∀ name : String,
      convert_to_internal_format
          [⟨name, PyVal.vNone, PyVal.vNone, PyVal.vNone⟩] =
        [⟨name, 1, 0, 0⟩]) := by
  refine ⟨fun d => rfl, fun d => rfl, ?_, ?_, fun name => rfl⟩
  · intro s d h
    simp only [safe_decimal_convert]
    by_cases he : pyRemoveCommasSpaces (pyStrip s) = ""
    · rw [if_pos he]
    · rw [if_neg he, h]
  · intro items
    simp [convert_to_internal_format]

/-- Witness for C10 at a concrete unparsable string. -/
theorem claim_C10_witness :
    safe_decimal_convert (PyVal.vStr "abc") 1 = 1 :=
  claim_C10.2.2.1 "abc" 1 (by decide)

/-- C1, counterexample: a one-item page with a claimed bill total of
1000 and a computed sum nowhere near it.  The claim says the
orchestrator reconciles the computed sum against the claimed total and
issues a corrective retry on a large discrepancy; the code instead
returns with `reconciliation_status = "skipped_for_speed"` (not a
reconciliation outcome) and zero retry attempts — the reconciliation
engine and the retry round are never invoked.  (The returned total is
`0` rather than the item amount 2 because the Phase 3b accuracy pass
reads raw-format keys from internal-format items, zeroing every
amount.) -/
theorem claim_C1_counterexample :
    extract_bill_post [⟨"Tab A", PyVal.vNum 1, PyVal.vNum 2, PyVal.vNum 2⟩]
        (some 1000) =
      ([⟨"Tab A", 1, 0, 0⟩], 0, ⟨"skipped_for_speed", 0, 0, []⟩) ∧
    "skipped_for_speed" ∉
      (["exact_match", "within_threshold", "mismatch"] : List String) := by
  constructor
  · have h1 : convert_to_internal_format
        [⟨"Tab A", PyVal.vNum 1, PyVal.vNum 2, PyVal.vNum 2⟩] =
        [⟨"Tab A", 1, 2, 2⟩] := rfl
    have hname : clean_item_name "Tab A" = "Tab A" := by decide
    have h2 : cleanOne ⟨"Tab A", 1, 2, 2⟩ = (⟨"Tab A", 1, 2, 2⟩, false) := by
      simp only [cleanOne, calculate_line_item_total, round2, roundHalfUpInt,
        hname]
      norm_num
    have hkeep : keepDecision [] ⟨"Tab A", 1, 2, 2⟩ = true := by decide
    have h3 : validate_and_clean [⟨"Tab A", 1, 2, 2⟩] (some 1000) =
        ([⟨"Tab A", 1, 2, 2⟩], ⟨1, [], [], 1⟩) := by
      simp [validate_and_clean, h2, filter_double_counts, goDC, hkeep,
        validate_line_item_errors]
    have h4 : validate_extracted_items_internal [⟨"Tab A", 1, 2, 2⟩] =
        [⟨"Tab A", 1, 0, 0⟩] := by decide
    have h5 : sum_line_items [(⟨"Tab A", 1, 0, 0⟩ : Item)] = 0 := by
      simp [sum_line_items, round2, roundHalfUpInt]
      norm_num
    simp only [extract_bill_post, h1]
    rw [if_neg (by decide : ¬([(⟨"Tab A", 1, 2, 2⟩ : Item)] = []))]
    simp [h3, h4, h5]
  · decide

/-- C1, amended: whenever at least one raw item was extracted,
`extract_bill` computes the sum of the cleaned-and-validated items and
returns it, but never runs the `ReconciliationEngine` against the
claimed bill total and never performs a corrective retry: the
reconciliation status is the constant `"skipped_for_speed"` and the
retry count is 0. -/
theorem claim_C1 :
    ∀ (line_items : List RawItem) (bt : Option ℚ),
      convert_to_internal_format line_items ≠ [] →
      (extract_bill_post line_items bt).2.2.reconciliation_status =
          "skipped_for_speed" ∧
      (extract_bill_post line_items bt).2.2.retry_attempts = 0 ∧
      (extract_bill_post line_items bt).2.1 =
        sum_line_items (validate_extracted_items_internal
          (validate_and_clean (convert_to_internal_format line_items) bt).1) := by
  intro li bt h
  simp only [extract_bill_post]
  rw [if_neg h]
  exact ⟨rfl, rfl, rfl⟩

/-- Witness for C1 at a concrete input. -/
theorem claim_C1_witness :
    (extract_bill_post [⟨"Tab B", PyVal.vNum 1, PyVal.vNum 2, PyVal.vNum 2⟩]
        none).2.2.reconciliation_status = "skipped_for_speed" ∧
    (extract_bill_post [⟨"Tab B", PyVal.vNum 1, PyVal.vNum 2, PyVal.vNum 2⟩]
        none).2.2.retry_attempts = 0 ∧
    (extract_bill_post [⟨"Tab B", PyVal.vNum 1, PyVal.vNum 2, PyVal.vNum 2⟩]
        none).2.1 =
      sum_line_items (validate_extracted_items_internal
        (validate_and_clean (convert_to_internal_format
          [⟨"Tab B", PyVal.vNum 1, PyVal.vNum 2, PyVal.vNum 2⟩]) none).1) :=
  claim_C1 [⟨"Tab B", PyVal.vNum 1, PyVal.vNum 2, PyVal.vNum 2⟩] none
    (by decide)

/-- The oracle of a response whose brace substring fails strict JSON
parsing, from which the regex salvager recovers one item, and which the
lenient `json5` parser would also parse successfully. -/
def c4oracle : RespOracle :=
  { hasBraces := true
    strict := none
    regexItems := [⟨"A", PyVal.vNum 1, PyVal.vNum 2, PyVal.vNum 2⟩]
    regexTotal := none
    fixed := none
    json5Avail := true
    json5 := some ⟨false, "", [⟨"A", PyVal.vNum 1, PyVal.vNum 2, PyVal.vNum 2⟩],
      none, [], ""⟩
    repaired := none }

/-- C4, counterexample: on `c4oracle` the attempted stages are exactly
strict parse followed by regex salvage — not a prefix of the order the
claim asserts (strict, lenient, structural repair, regex salvage) — and
the lenient stage is never attempted even though it would have
succeeded. -/
theorem claim_C4_counterexample :
    (parse_response c4oracle).2.map Prod.fst =
      [Stage.strict, Stage.regexSalvage] ∧
    ([Stage.strict, Stage.regexSalvage].isPrefixOf claimedStageOrder
      = false) ∧
    Stage.json5lenient ∉ (parse_response c4oracle).2.map Prod.fst ∧
    c4oracle.json5.isSome = true := by
  refine ⟨by decide, by decide, by decide, by decide⟩

/-- C4, amended: the recovery stages are attempted in the order strict
parse, regex field salvage, structural fix with strict re-parse, lenient
`json5` parse — each stage only after every earlier one failed (every
non-final trace entry is a failure) — and the aggressive-repair stage is
never attempted (the regex stage always leaves a non-`None` dict, so the
`extraction is None` guard in front of the repair never holds). -/
theorem claim_C4 :
    ∀ t : RespOracle,
      (((parse_response t).2.map Prod.fst).isPrefixOf codeStageOrder
        = true) ∧
      (∀ p ∈ ((parse_response t).2).dropLast, p.2 = false) ∧
      Stage.aggressiveRepair ∉ (parse_response t).2.map Prod.fst := by
  intro t
  unfold parse_response
  refine ⟨?_, ?_, ?_⟩ <;>
    (repeat' split) <;>
    · dsimp only [List.map, List.dropLast]
      decide

/-- Witness for C4: the amended theorem applied at `c4oracle`, whose
trace has a non-final entry, discharging the membership hypothesis. -/
theorem claim_C4_witness : (Stage.strict, false).2 = false :=
  (claim_C4 c4oracle).2.1 (Stage.strict, false) (by decide)

/-- C7, counterexample: the claim demands a diagnostic note whenever
zero items are recoverable; but when the strict parse *succeeds* on a
payload with no line items and no notes field (e.g. the response text
`'{"line_items": []}'`), the parser returns `line_items = []` with an
*empty* notes string — no diagnostic note. -/
theorem claim_C7_counterexample :
    (parse_response ⟨true, some ⟨false, "", [], none, [], ""⟩, [], none,
        none, true, none, none⟩).1.line_items = [] ∧
    (parse_response ⟨true, some ⟨false, "", [], none, [], ""⟩, [], none,
        none, true, none, none⟩).1.notes = "" := by
  refine ⟨by decide, by decide⟩

/-- C7, amended: `_parse_response` is total by construction (every
branch returns a well-shaped result dict; the outer handler catches all
exceptions), and for every input from which no cascade stage recovers
any item it returns `line_items = []` — with a nonempty diagnostic note
on the no-JSON path, but with the (possibly empty) payload or salvage
notes when some parse succeeded with zero items. -/
theorem claim_C7 :
    ∀ t : RespOracle, noItemsRecoverable t →
      (parse_response t).1.line_items = [] := by
  intro t h
  obtain ⟨h1, h2, h3, h4⟩ := h
  simp only [parse_response]
  by_cases hb : t.hasBraces = true
  · simp only [hb]
    cases hs : t.strict with
    | some d =>
      simp only [truthyResult, normalizeD]
      by_cases he : d.isEmpty = true
      · simp [he]
      · simp only [Bool.not_eq_true] at he
        simp [he, h1 d hs]
    | none =>
      simp only [h2]
      cases hf : t.fixed with
      | some d =>
        simp only [truthyResult, normalizeD]
        by_cases he : d.isEmpty = true
        · simp [he]
        · simp only [Bool.not_eq_true] at he
          simp [he, h3 d hf]
      | none =>
        by_cases hj : t.json5Avail = true
        · simp only [hj]
          cases h5 : t.json5 with
          | some d =>
            simp only [truthyResult, normalizeD]
            by_cases he : d.isEmpty = true
            · simp [he]
            · simp only [Bool.not_eq_true] at he
              simp [he, h4 d h5]
          | none => simp [regexResult, h2]
        · simp only [Bool.not_eq_true] at hj
          simp [hj, regexResult, h2]
  · simp only [Bool.not_eq_true] at hb
    simp [hb]

/-- Witness for C7: a braceless response text, every stage failing. -/
theorem claim_C7_witness :
    (parse_response ⟨false, none, [], none, none, false, none,
        none⟩).1.line_items = [] :=
  claim_C7 ⟨false, none, [], none, none, false, none, none⟩ (by
    unfold noItemsRecoverable
    constructor
    · intro d h; exact nomatch h
    constructor
    · rfl
    constructor
    · intro d h; exact nomatch h
    · intro d h; exact nomatch h)

end BillExtractor
